import Mathlib

/-!
Shallow embedding of the Mindful-AI backend (chat service, document service,
auth middleware, auth service, user service) and verification of the frozen
claims about it.

External stores (the relational database) are modelled as explicit state;
external calls (identity provider, generative model, vector search) are
modelled as injected outcomes: each remote call result is a parameter of the
embedded function, an `Except`/`Option` value standing for its success or
failure.  Database query errors returned by the client library are modelled
as `Option String` error slots, matching the `{ data, error }` result shape
of the client used in the source.
-/

/-! ## Chat service data model (src/services/chat.service.ts) -/

/-- A row of the `chat_messages` table. -/
structure ChatMessageRow where
  user_id : String
  session_id : String
  user_message : String
  ai_response : String
  created_at : Nat
  deriving DecidableEq, Repr

/-- A row of the `chat_sessions` table. -/
structure ChatSessionRow where
  id : String
  user_id : String
  title : String
  created_at : Nat
  last_message_at : Nat
  deriving DecidableEq, Repr

/-- The relational-store state the chat service touches. -/
structure ChatDb where
  chat_sessions : List ChatSessionRow
  chat_messages : List ChatMessageRow
  deriving DecidableEq, Repr

/-- A document returned by the vector-store similarity search: `metadata.title`
(nullable) and `pageContent`. -/
structure RetrievedDoc where
  title : Option String
  pageContent : String
  deriving DecidableEq, Repr

/-- A source snippet of the `ChatResponse` payload. -/
structure SourceSnippet where
  title : String
  content : String
  deriving DecidableEq, Repr

/-- The `ChatResponse` interface: `sources` is optional (`undefined` when
no document was retrieved). -/
structure ChatResponse where
  response : String
  sources : Option (List SourceSnippet)
  deriving DecidableEq, Repr

/-- The three slots fed into the fixed prompt template of `processMessage`
(`history`, `question`, `context`). -/
structure PromptValues where
  history : String
  question : String
  context : String
  deriving DecidableEq, Repr

/-- JavaScript `title || 'Untitled'`: both a missing and an empty title fall
back to the default. -/
def titleOrUntitled (t : Option String) : String :=
  match t with
  | none => "Untitled"
  | some s => if s = "" then "Untitled" else s

/-- JavaScript `s.substring(0, n)` for a nonnegative bound: the first `n`
characters. -/
def jsSubstringTo (s : String) (n : Nat) : String :=
  String.mk (s.toList.take n)

/-- The `created_at` ascending comparison used by the history query. -/
def createdAtLe (a b : ChatMessageRow) : Prop :=
  a.created_at ≤ b.created_at

instance : DecidableRel createdAtLe := fun a b =>
  inferInstanceAs (Decidable (a.created_at ≤ b.created_at))

/-- Model of `loadChatHistory` (chat.service.ts): select the session's messages
ordered by `created_at` ascending; a query error or an empty result yields
the fixed sentinel, otherwise the turns are joined into a flat transcript.
`historyErr` is the error slot of the query result. -/
def loadChatHistory (db : ChatDb) (sessionId : String)
    (historyErr : Option String) : String :=
  match historyErr with
  | some _ => "No previous conversation history."
  | none =>
    let rows := (db.chat_messages.filter
      (fun m => m.session_id == sessionId)).insertionSort createdAtLe
    if rows.isEmpty then
      "No previous conversation history."
    else
      String.intercalate "\n\n" (rows.map
        (fun m => "User: " ++ m.user_message ++ "\nAI: " ++ m.ai_response))

/-- Model of `saveChatMessage` (chat.service.ts): insert the (message, response) pair
into `chat_messages` — throwing on an insert error — then update
`last_message_at` of the `chat_sessions` row matched by `id` only; an update
error is logged and swallowed.  `insertErr`/`updateErr` are the error slots
of the two statements, `now` the timestamp. -/
def saveChatMessage (db : ChatDb) (userId sessionId userMessage aiResponse : String)
    (now : Nat) (insertErr updateErr : Option String) : Except String ChatDb :=
  match insertErr with
  | some e => .error ("Failed to save chat message: " ++ e)
  | none =>
    let db1 : ChatDb :=
      { db with chat_messages := db.chat_messages ++
          [⟨userId, sessionId, userMessage, aiResponse, now⟩] }
    match updateErr with
    | some _ => .ok db1
    | none =>
      .ok { db1 with chat_sessions := (db1.chat_sessions.map
        (fun s => if s.id == sessionId then { s with last_message_at := now } else s)) }

/-- Model of `deleteChatSession` (chat.service.ts): look up the session matched by
both `id` and `user_id`; when absent return `false` without touching the
store; otherwise delete the session's messages, then the session row,
throwing on either statement's error.  `messagesErr`/`deleteErr` are the
error slots of the two delete statements. -/
def deleteChatSession (db : ChatDb) (userId sessionId : String)
    (messagesErr deleteErr : Option String) : Except String (Bool × ChatDb) :=
  if (db.chat_sessions.filter
      (fun s => s.id == sessionId && s.user_id == userId)).isEmpty then
    .ok (false, db)
  else
    match messagesErr with
    | some e => .error ("Failed to delete session messages: " ++ e)
    | none =>
      let db1 : ChatDb :=
        { db with chat_messages := (db.chat_messages.filter
            (fun m => !(m.session_id == sessionId))) }
      match deleteErr with
      | some e => .error ("Failed to delete session: " ++ e)
      | none =>
        .ok (true, { db1 with chat_sessions := (db1.chat_sessions.filter
            (fun s => !(s.id == sessionId))) })

/-- Model of `updateChatTitle` (chat.service.ts): look up the session matched by both
`id` and `user_id`; when absent return `false` without touching the store;
otherwise update the title of the row matched by `id`, returning `false` and
leaving the store as is on an update error. -/
def updateChatTitle (db : ChatDb) (userId sessionId title : String)
    (updateErr : Option String) : Bool × ChatDb :=
  if (db.chat_sessions.filter
      (fun s => s.id == sessionId && s.user_id == userId)).isEmpty then
    (false, db)
  else
    match updateErr with
    | some _ => (false, db)
    | none =>
      (true, { db with chat_sessions := (db.chat_sessions.map
          (fun s => if s.id == sessionId then { s with title := title } else s)) })

/-- The per-document block of the context string built in `processMessage`
(the template literal spanning lines 73–76 of chat.service.ts). -/
def contextBlock (doc : RetrievedDoc) : String :=
  "\nTitle: " ++ titleOrUntitled doc.title ++
  "\nContent: " ++ doc.pageContent ++ "\n      "

/-- The context string of `processMessage`: the blocks joined by blank
lines (empty when no document was retrieved). -/
def mkContext (documents : List RetrievedDoc) : String :=
  String.intercalate "\n\n" (documents.map contextBlock)

/-- Outcomes of the remote calls made by one `processMessage` run: the
history query error slot, the query-rewrite model call, the similarity
search, the response model call, the insert/update error slots of
`saveChatMessage`, and the timestamp. -/
structure ProcessOracle where
  historyErr : Option String
  searchQuery : Except String String
  searchResult : Except String (List RetrievedDoc)
  modelResponse : Except String String
  insertErr : Option String
  updateErr : Option String
  now : Nat

/-- The observable outcome of a successful `processMessage` run: the
returned `ChatResponse`, the slot values fed to the prompt template, and the
resulting store state. -/
structure ProcessOutcome where
  response : ChatResponse
  prompt : PromptValues
  db : ChatDb
  deriving DecidableEq, Repr

/-- Model of `processMessage` (chat.service.ts): load history, rewrite the search
query, run the similarity search, build the context (placeholder when
empty), invoke the model on the rendered prompt, persist via
`saveChatMessage`, and return the response with up to K truncated source
snippets (`undefined` when no document was retrieved).  Any error thrown on
the way is caught and rethrown as the generic message. -/
def processMessage (db : ChatDb) (userId sessionId message : String)
    (category : Option String) (o : ProcessOracle) :
    Except String ProcessOutcome :=
  let history := loadChatHistory db sessionId o.historyErr
  match o.searchQuery with
  | .error e => .error ("Failed to process message: " ++ e)
  | .ok _searchQuery =>
    -- the category only selects the metadata filter of the search; the
    -- search outcome itself is the injected `o.searchResult`
    let _filter := category
    match o.searchResult with
    | .error e => .error ("Failed to process message: " ++ e)
    | .ok documents =>
      let context := mkContext documents
      let prompt : PromptValues :=
        ⟨history, message,
          if context.length > 0 then context
          else "No specific information available on this topic."⟩
      match o.modelResponse with
      | .error e => .error ("Failed to process message: " ++ e)
      | .ok response =>
        match saveChatMessage db userId sessionId message response
            o.now o.insertErr o.updateErr with
        | .error e => .error ("Failed to process message: " ++ e)
        | .ok db1 =>
          let sources : Option (List SourceSnippet) :=
            if documents.length > 0 then
              some (documents.map (fun doc =>
                ⟨titleOrUntitled doc.title,
                 jsSubstringTo doc.pageContent 150 ++ "..."⟩))
            else
              none
          .ok ⟨⟨response, sources⟩, prompt, db1⟩

/-! ## Chat title generation (chat.service.ts, generateChatTitle) -/

/-- JavaScript `String.prototype.trim`: strip leading and trailing
whitespace. -/
def jsTrim (s : List Char) : List Char :=
  ((s.dropWhile Char.isWhitespace).reverse.dropWhile Char.isWhitespace).reverse

/-- The `trim` operation lifted to `String`. -/
def jsTrimS (s : String) : String :=
  String.mk (jsTrim s.toList)

/-- The clean-up applied to the model output in `generateChatTitle`: trim,
then cap at 50 characters by keeping the first 47 and appending an
ellipsis. -/
def truncateTitle (raw : String) : String :=
  let title := jsTrimS raw
  if title.length > 50 then jsSubstringTo title 47 ++ "..." else title

/-- Model of `generateChatTitle` (chat.service.ts): when the session lookup by `id`
and `user_id` fails, return the fallback title without generation;
otherwise clean up the model output (`modelOutput` is the injected model
call result), store it on the session row matched by `id` (an update error
is logged and swallowed), and return it. -/
def generateChatTitle (db : ChatDb) (userId sessionId : String)
    (modelOutput : String) (updateErr : Option String) : String × ChatDb :=
  if (db.chat_sessions.filter
      (fun s => s.id == sessionId && s.user_id == userId)).isEmpty then
    ("New Conversation", db)
  else
    let title := truncateTitle modelOutput
    match updateErr with
    | some _ => (title, db)
    | none =>
      (title, { db with chat_sessions := (db.chat_sessions.map
          (fun s => if s.id == sessionId then { s with title := title } else s)) })

/-! ## Document service data model (src/services/document.service.ts) -/

/-- A row of the vector-store table: the `documentId` stamped into its
metadata and its page content (the embedding itself is irrelevant to the
claims). -/
structure VectorRow where
  documentId : String
  pageContent : String
  deriving DecidableEq, Repr

/-- A row of the `document_metadata` table (`category` is nullable). -/
structure DocumentMetadataRow where
  id : String
  title : String
  description : String
  category : Option String
  file_name : String
  chunk_count : Nat
  file_type : String
  deriving DecidableEq, Repr

/-- The two stores the document service touches. -/
structure DocDb where
  vectors : List VectorRow
  document_metadata : List DocumentMetadataRow
  deriving DecidableEq, Repr

/-- The `DeleteResult` interface of the document service. -/
structure DeleteResult where
  success : Bool
  message : String
  deriving DecidableEq, Repr

/-- Model of `deleteDocument` (document.service.ts): delete all vector rows whose
`metadata->>documentId` equals the id, then delete the `document_metadata`
row; either statement's error is thrown, caught, and reported as one
failure message, with no compensation of a deletion already applied.
`vectorDeleteErr`/`metadataDeleteErr` are the error slots of the two
statements. -/
def deleteDocument (db : DocDb) (documentId : String)
    (vectorDeleteErr metadataDeleteErr : Option String) : DeleteResult × DocDb :=
  match vectorDeleteErr with
  | some e =>
    (⟨false, "Error deleting document: Failed to delete document chunks: " ++ e⟩, db)
  | none =>
    let db1 : DocDb :=
      { db with vectors := (db.vectors.filter
          (fun r => !(r.documentId == documentId))) }
    match metadataDeleteErr with
    | some e =>
      (⟨false, "Error deleting document: Failed to delete document metadata: " ++ e⟩, db1)
    | none =>
      (⟨true, "Document successfully deleted"⟩,
       { db1 with document_metadata := (db1.document_metadata.filter
           (fun r => !(r.id == documentId))) })

/-- Boolean string order used to model the `order by category` clause
(`none` sorts like a null, first). -/
def optStrLeB (a b : Option String) : Bool :=
  match a, b with
  | none, _ => true
  | some _, none => false
  | some x, some y => x < y || x == y

/-- The order `optStrLeB` as a decidable relation for `insertionSort`. -/
def optStrLe (a b : Option String) : Prop :=
  optStrLeB a b = true

instance : DecidableRel optStrLe := fun a b =>
  inferInstanceAs (Decidable (optStrLeB a b = true))

/-- JavaScript `[...new Set(l)]`: drop duplicates keeping the first
occurrence of each element. -/
def jsSetDedup {α : Type} [DecidableEq α] : List α → List α
  | [] => []
  | x :: xs => x :: ((jsSetDedup xs).filter (fun y => y ≠ x))

/-- The pure pipeline of `getCategories` (document.service.ts): select the
`category` column ordered by category, drop duplicates with a `Set`, and
keep only truthy values (neither null nor the empty string). -/
def getCategoriesList (rows : List DocumentMetadataRow) : List String :=
  let ordered := (rows.map (fun r => r.category)).insertionSort optStrLe
  ((jsSetDedup ordered).filterMap id).filter (fun s => s ≠ "")

/-- Model of `getCategories` (document.service.ts): a query error is thrown,
otherwise the deduplicated truthy category list is returned. -/
def getCategories (rows : List DocumentMetadataRow) (err : Option String) :
    Except String (List String) :=
  match err with
  | some e => .error ("Failed to fetch categories: " ++ e)
  | none => .ok (getCategoriesList rows)

/-! ## Admin middleware (src/middleware/admin.middleware.ts) -/

/-- The authenticated identity placed on the request by the auth
middleware: the user id and whether `user_metadata.is_admin === true`. -/
structure AuthUser where
  id : String
  is_admin_claim : Bool
  deriving DecidableEq, Repr

/-- A row of the `users` table. -/
structure UserRow where
  id : String
  role : String
  deriving DecidableEq, Repr

/-- What a middleware does with a request: pass it on or answer with a
status code and message. -/
inductive MiddlewareOutcome where
  | next
  | resp (statusCode : Nat) (msg : String)
  deriving DecidableEq, Repr

namespace AdminMiddleware

/-- The `select role ... eq id ... single()` fallback query: a transport
error or a missing row is an error result (a `single()` call errors on zero
rows), otherwise the row's role. -/
def lookupRole (users : List UserRow) (userId : String)
    (dbErr : Option String) : Except String String :=
  match dbErr with
  | some e => .error e
  | none =>
    match users.find? (fun u => u.id == userId) with
    | some u => .ok u.role
    | none => .error "JSON object requested, multiple (or no) rows returned"

/-- Model of `AdminMiddleware.requireAdmin`: 401 without an authenticated user;
pass when the in-token `is_admin` claim is true; otherwise fall back to the
`users`-table role lookup — 500 when it errors, 403 when the role is not
`admin`, pass when it is. -/
def requireAdmin (user : Option AuthUser) (users : List UserRow)
    (dbErr : Option String) : MiddlewareOutcome :=
  match user with
  | none => .resp 401 "Authentication required"
  | some u =>
    if u.is_admin_claim then .next
    else
      match lookupRole users u.id dbErr with
      | .error _ => .resp 500 "Error verifying user permissions"
      | .ok role =>
        if role == "admin" then .next
        else .resp 403 "Admin privileges required"

end AdminMiddleware

/-! ## Auth service (src/services/auth.service.ts, resendOtp) -/

/-- The common service response envelope
`{ status, msg, statusCode? }`. -/
structure ServiceResult where
  status : Bool
  msg : String
  statusCode : Option Nat
  deriving DecidableEq, Repr

/-- Substring test over character lists, used for JavaScript
`String.prototype.includes`. -/
def containsSub (needle : List Char) : List Char → Bool
  | [] => needle.isEmpty
  | c :: rest => needle.isPrefixOf (c :: rest) || containsSub needle rest

/-- JavaScript `hay.includes(needle)`. -/
def strIncludes (hay needle : String) : Bool :=
  containsSub needle.toList hay.toList

namespace AuthService

/-- Model of `AuthService.resendOtp` (auth.service.ts): reject a missing email;
surface a `listUsers` failure as a generic 400; 404 when no user carries the
email; then resend the signup OTP, mapping a provider error whose message
contains `already confirmed` to the specific 400, one containing
`rate limit` to a 429, and any other to a 400 carrying the provider message
verbatim.  `listUsersResult` is the injected admin `listUsers` call result
(the registered emails); `resendErr` the error slot of the resend call. -/
def resendOtp (email : String) (listUsersResult : Except String (List String))
    (resendErr : Option String) : ServiceResult :=
  if email = "" then
    ⟨false, "Email is required", some 400⟩
  else
    match listUsersResult with
    | .error _ => ⟨false, "Error verifying user email", some 400⟩
    | .ok emails =>
      if !(emails.contains email) then
        ⟨false, "No user found with this email address", some 404⟩
      else
        match resendErr with
        | some m =>
          if strIncludes m "already confirmed" then
            ⟨false, "Email is already verified. Please login instead.", some 400⟩
          else if strIncludes m "rate limit" then
            ⟨false, "Too many requests. Please try again later.", some 429⟩
          else
            ⟨false, m, some 400⟩
        | none => ⟨true, "New verification code sent to your email", none⟩

end AuthService

/-! ## User service (src/services/user.service.ts, updateUserProfile) -/

/-- A row of the `profiles` table: the columns the service names, plus
`other`, the remaining columns (role-bearing data included) indexed by
column name. -/
structure Profile where
  id : String
  full_name : String
  avatar_url : String
  website : String
  updated_at : String
  other : String → String

/-- The field whitelist of `updateUserProfile`. -/
def allowedFields : List String := ["full_name", "avatar_url", "website"]

/-- One column assignment of a generic row update: a known column name sets
the named field, any other key sets that column in `other`. -/
def applyField (p : Profile) (kv : String × String) : Profile :=
  if kv.1 = "id" then { p with id := kv.2 }
  else if kv.1 = "full_name" then { p with full_name := kv.2 }
  else if kv.1 = "avatar_url" then { p with avatar_url := kv.2 }
  else if kv.1 = "website" then { p with website := kv.2 }
  else if kv.1 = "updated_at" then { p with updated_at := kv.2 }
  else { p with other := fun k => if k = kv.1 then kv.2 else p.other k }

/-- The update payload `updateUserProfile` builds: the caller pairs whose
key is whitelisted, then the `updated_at` stamp. -/
def filteredProfileData (profileData : List (String × String)) (now : String) :
    List (String × String) :=
  (profileData.filter (fun kv => allowedFields.contains kv.1)) ++ [("updated_at", now)]

/-- Apply an update payload to one row. -/
def applyProfileUpdate (fields : List (String × String)) (p : Profile) : Profile :=
  fields.foldl applyField p

namespace UserService

/-- Model of `UserService.updateUserProfile` (user.service.ts): 400 without a valid
uuid (`validUuid` models `isUuid(userId)`) or with an empty payload, both
without a write; otherwise filter the payload to the whitelist, stamp
`updated_at`, and update the row matched by `id` — a statement error or a
`single()` miss (no row with the id) is a 400 with the store untouched. -/
def updateUserProfile (profiles : List Profile) (userId : String)
    (validUuid : Bool) (profileData : List (String × String)) (now : String)
    (dbErr : Option String) : ServiceResult × List Profile :=
  if !validUuid then
    (⟨false, "Invalid or missing user ID", some 400⟩, profiles)
  else if profileData.isEmpty then
    (⟨false, "No data provided for update", some 400⟩, profiles)
  else
    let filteredData := filteredProfileData profileData now
    match dbErr with
    | some _ => (⟨false, "Failed to update profile", some 400⟩, profiles)
    | none =>
      if profiles.any (fun p => p.id == userId) then
        (⟨true, "Profile updated successfully", none⟩,
         profiles.map (fun p =>
           if p.id == userId then applyProfileUpdate filteredData p else p))
      else
        (⟨false, "Failed to update profile", some 400⟩, profiles)

end UserService

/-! ## Concrete fixtures used by closed counterexamples and witnesses -/

/-- A store holding one session owned by `alice` and no messages. -/
def aliceSessionDb : ChatDb := ⟨[⟨"s1", "alice", "t", 0, 0⟩], []⟩

/-- An oracle for one fully successful run with empty retrieval. -/
def emptyRetrievalOracle : ProcessOracle :=
  ⟨none, .ok "query", .ok [], .ok "calm", none, none, 7⟩

/-- The outcome of `processMessage` on an empty store with
`emptyRetrievalOracle`. -/
def emptyRetrievalOutcome : ProcessOutcome :=
  ⟨⟨"calm", none⟩,
   ⟨"No previous conversation history.", "hello",
    "No specific information available on this topic."⟩,
   ⟨[], [⟨"u", "s1", "hello", "calm", 7⟩]⟩⟩

/-- An oracle whose history query errors while every later step
succeeds. -/
def histErrOracle : ProcessOracle :=
  ⟨some "connection reset", .ok "query", .ok [], .ok "calm", none, none, 7⟩

/-- The outcome of `processMessage` on an empty store with
`histErrOracle`. -/
def histErrOutcome : ProcessOutcome :=
  ⟨⟨"calm", none⟩,
   ⟨"No previous conversation history.", "hello",
    "No specific information available on this topic."⟩,
   ⟨[], [⟨"u", "s1", "hello", "calm", 7⟩]⟩⟩

/-- A store holding one session owned by `bob`. -/
def bobSessionDb : ChatDb := ⟨[⟨"s1", "bob", "t", 0, 0⟩], []⟩

/-- A document store with two documents, one chunk each. -/
def twoDocDb : DocDb :=
  ⟨[⟨"d1", "c1"⟩, ⟨"d2", "c2"⟩],
   [⟨"d1", "t1", "", some "sleep", "f1", 1, "pdf"⟩,
    ⟨"d2", "t2", "", some "anxiety", "f2", 1, "pdf"⟩]⟩

/-- Metadata rows sharing one category, with a null and an empty one
between them. -/
def sharedCategoryRows : List DocumentMetadataRow :=
  [⟨"1", "Sleep Guide", "", some "sleep", "f1", 1, "pdf"⟩,
   ⟨"2", "Sleep Again", "", some "sleep", "f2", 1, "pdf"⟩,
   ⟨"3", "No Cat", "", none, "f3", 1, "pdf"⟩,
   ⟨"4", "Empty Cat", "", some "", "f4", 1, "pdf"⟩]

/-- A profile row whose unnamed columns (role included) all read `user`. -/
def exProfile : Profile := ⟨"u1", "n", "a", "w", "t0", fun _ => "user"⟩

/-- A 60-character model output for the title-truncation witness. -/
def longModelOutput : String := String.mk (List.replicate 60 'x')

/-! ## Helper lemmas -/

/-- Membership is unchanged by the `Set`-style deduplication. -/
theorem mem_jsSetDedup {α : Type} [DecidableEq α] {a : α} :
    ∀ {l : List α}, a ∈ jsSetDedup l ↔ a ∈ l := by
  intro l
  induction l with
  | nil => simp [jsSetDedup]
  | cons x xs ih =>
    by_cases hax : a = x
    · simp [jsSetDedup, hax]
    · simp [jsSetDedup, List.mem_filter, hax, ih]

/-- The `Set`-style deduplication yields a duplicate-free list. -/
theorem nodup_jsSetDedup {α : Type} [DecidableEq α] :
    ∀ l : List α, (jsSetDedup l).Nodup := by
  intro l
  induction l with
  | nil => simp [jsSetDedup]
  | cons x xs ih =>
    refine List.nodup_cons.2 ⟨?_, ih.filter _⟩
    intro hmem
    simp [List.mem_filter] at hmem

/-- A whitelisted column assignment never touches `id` or the unnamed
columns. -/
theorem applyField_keeps_id_other (p : Profile) (kv : String × String)
    (h : kv.1 ∈ (["full_name", "avatar_url", "website", "updated_at"] : List String)) :
    (applyField p kv).id = p.id ∧ (applyField p kv).other = p.other := by
  simp only [List.mem_cons, List.not_mem_nil, or_false] at h
  rcases h with h | h | h | h <;> simp [applyField, h]

/-- Folding whitelisted column assignments never touches `id` or the
unnamed columns. -/
theorem applyProfileUpdate_keeps_id_other :
    ∀ (fields : List (String × String)) (p : Profile),
      (∀ kv ∈ fields, kv.1 ∈ (["full_name", "avatar_url", "website", "updated_at"] : List String)) →
      (applyProfileUpdate fields p).id = p.id ∧ (applyProfileUpdate fields p).other = p.other := by
  intro fields
  induction fields with
  | nil => intro p _; exact ⟨rfl, rfl⟩
  | cons kv rest ih =>
    intro p h
    have hkv := h kv (by simp)
    have hrest : ∀ kv2 ∈ rest, kv2.1 ∈ (["full_name", "avatar_url", "website", "updated_at"] : List String) :=
      fun kv2 hm => h kv2 (by simp [hm])
    have step := applyField_keeps_id_other p kv hkv
    have tail := ih (applyField p kv) hrest
    refine ⟨?_, ?_⟩
    · calc (applyProfileUpdate (kv :: rest) p).id
          = (applyProfileUpdate rest (applyField p kv)).id := rfl
        _ = (applyField p kv).id := tail.1
        _ = p.id := step.1
    · calc (applyProfileUpdate (kv :: rest) p).other
          = (applyProfileUpdate rest (applyField p kv)).other := rfl
        _ = (applyField p kv).other := tail.2
        _ = p.other := step.2

/-- Every key of the update payload `updateUserProfile` builds is
whitelisted or the timestamp. -/
theorem filteredProfileData_keys (profileData : List (String × String)) (now : String) :
    ∀ kv ∈ filteredProfileData profileData now,
      kv.1 ∈ (["full_name", "avatar_url", "website", "updated_at"] : List String) := by
  intro kv hkv
  simp only [filteredProfileData, List.mem_append, List.mem_filter,
    List.mem_singleton] at hkv
  rcases hkv with ⟨_, hall⟩ | h2
  · have hmem : kv.1 ∈ allowedFields := List.mem_of_elem_eq_true hall
    simp only [allowedFields, List.mem_cons, List.not_mem_nil, or_false] at hmem
    rcases hmem with h | h | h <;> simp [h]
  · simp [h2]

/-! ## Claim theorems -/

/-- C2: whenever the similarity search returns zero documents, the
`ChatResponse` of `processMessage` omits `sources` (it is `undefined`) and
the context slot of the rendered prompt is the fixed placeholder string
rather than the empty string. -/
theorem processMessage_empty_retrieval_spec
    (db : ChatDb) (userId sessionId message : String) (category : Option String)
    (o : ProcessOracle) (out : ProcessOutcome)
    (hsearch : o.searchResult = .ok [])
    (hrun : processMessage db userId sessionId message category o = .ok out) :
    out.response.sources = none ∧
    out.prompt.context = "No specific information available on this topic." := by
  unfold processMessage at hrun
  cases hq : o.searchQuery with
  | error e => simp only [hq] at hrun; exact Except.noConfusion hrun
  | ok q =>
    simp only [hq, hsearch] at hrun
    cases hm : o.modelResponse with
    | error e => simp only [hm] at hrun; exact Except.noConfusion hrun
    | ok resp =>
      simp only [hm] at hrun
      cases hs : saveChatMessage db userId sessionId message resp o.now o.insertErr o.updateErr with
      | error e => simp only [hs] at hrun; exact Except.noConfusion hrun
      | ok db1 =>
        have h0 : ("\n\n".intercalate ([] : List String)) = "" := rfl
        simp only [hs, mkContext, List.map_nil, h0,
          List.length_nil, Except.ok.injEq] at hrun
        subst hrun
        simp

/-- Witness for C2 at a concrete empty-retrieval run. -/
theorem processMessage_empty_retrieval_spec_witness :
    emptyRetrievalOutcome.response.sources = none ∧
    emptyRetrievalOutcome.prompt.context =
      "No specific information available on this topic." :=
  processMessage_empty_retrieval_spec ⟨[], []⟩ "u" "s1" "hello" none
    emptyRetrievalOracle emptyRetrievalOutcome rfl rfl

/-- C8: for a session with zero stored messages, and likewise when the
history query errors, `loadChatHistory` returns the fixed sentinel rather
than the empty string, and `processMessage` feeds exactly that value into
the history slot of the prompt. -/
theorem loadChatHistory_sentinel_spec (db : ChatDb) (sessionId : String) :
    (∀ e, loadChatHistory db sessionId (some e) = "No previous conversation history.") ∧
    (db.chat_messages.filter (fun m => m.session_id == sessionId) = [] →
      loadChatHistory db sessionId none = "No previous conversation history.") ∧
    ("No previous conversation history." ≠ "") ∧
    (∀ (userId message : String) (category : Option String) (o : ProcessOracle)
        (out : ProcessOutcome),
      processMessage db userId sessionId message category o = .ok out →
      out.prompt.history = loadChatHistory db sessionId o.historyErr) := by
  refine ⟨fun e => rfl, ?_, by decide, ?_⟩
  · intro h
    simp [loadChatHistory, h]
  · intro userId message category o out hrun
    unfold processMessage at hrun
    cases hq : o.searchQuery with
    | error e => simp only [hq] at hrun; exact Except.noConfusion hrun
    | ok q =>
      simp only [hq] at hrun
      cases hr : o.searchResult with
      | error e => simp only [hr] at hrun; exact Except.noConfusion hrun
      | ok documents =>
        simp only [hr] at hrun
        cases hm : o.modelResponse with
        | error e => simp only [hm] at hrun; exact Except.noConfusion hrun
        | ok resp =>
          simp only [hm] at hrun
          cases hs : saveChatMessage db userId sessionId message resp o.now o.insertErr o.updateErr with
          | error e => simp only [hs] at hrun; exact Except.noConfusion hrun
          | ok db1 =>
            simp only [hs, Except.ok.injEq] at hrun
            subst hrun
            rfl

/-- Witness for C8 at a concrete store. -/
theorem loadChatHistory_sentinel_spec_witness :
    loadChatHistory ⟨[], []⟩ "s1" (some "boom") = "No previous conversation history." ∧
    loadChatHistory ⟨[], []⟩ "s1" none = "No previous conversation history." ∧
    histErrOutcome.prompt.history = loadChatHistory ⟨[], []⟩ "s1" histErrOracle.historyErr := by
  refine ⟨(loadChatHistory_sentinel_spec ⟨[], []⟩ "s1").1 "boom",
          (loadChatHistory_sentinel_spec ⟨[], []⟩ "s1").2.1 rfl,
          (loadChatHistory_sentinel_spec ⟨[], []⟩ "s1").2.2.2 "u" "hello" none
            histErrOracle histErrOutcome rfl⟩

/-- C1 counterexample: with the only session owned by `alice`, a
`processMessage`-path persistence call for caller `bob` still inserts the
message row and still bumps the session's `last_message_at`, so an
ownership check does not guard this write path. -/
theorem saveChatMessage_ignores_ownership_cex :
    (aliceSessionDb.chat_sessions.all (fun s => !(s.user_id == "bob"))) = true ∧
    saveChatMessage aliceSessionDb "bob" "s1" "hi" "yo" 5 none none =
      .ok ⟨[⟨"s1", "alice", "t", 0, 5⟩], [⟨"bob", "s1", "hi", "yo", 5⟩]⟩ := by
  exact ⟨rfl, rfl⟩

/-- C1 as amended: `deleteChatSession` and `updateChatTitle` refuse to
touch the store when no session row matches both the id and the caller's
`user_id`, but `saveChatMessage` inserts the message row and updates the
session timestamp unconditionally. -/
theorem sessionWrite_ownership_spec
    (db : ChatDb) (userId sessionId : String)
    (hnoown : (db.chat_sessions.filter
      (fun s => s.id == sessionId && s.user_id == userId)).isEmpty = true) :
    (∀ mErr dErr, deleteChatSession db userId sessionId mErr dErr = .ok (false, db)) ∧
    (∀ title uErr, updateChatTitle db userId sessionId title uErr = (false, db)) ∧
    (∀ userMessage aiResponse now,
       saveChatMessage db userId sessionId userMessage aiResponse now none none =
         .ok ⟨db.chat_sessions.map
                (fun s => if s.id == sessionId then { s with last_message_at := now } else s),
              db.chat_messages ++ [⟨userId, sessionId, userMessage, aiResponse, now⟩]⟩) := by
  refine ⟨fun mErr dErr => ?_, fun title uErr => ?_, fun userMessage aiResponse now => rfl⟩
  · simp [deleteChatSession, hnoown]
  · simp [updateChatTitle, hnoown]

/-- Witness for C1 (amended) at a concrete store with one foreign
session. -/
theorem sessionWrite_ownership_spec_witness :
    deleteChatSession aliceSessionDb "bob" "s1" none none = .ok (false, aliceSessionDb) ∧
    updateChatTitle aliceSessionDb "bob" "s1" "new" none = (false, aliceSessionDb) ∧
    saveChatMessage aliceSessionDb "bob" "s1" "hi" "yo" 5 none none =
      .ok ⟨aliceSessionDb.chat_sessions.map
             (fun s => if s.id == "s1" then { s with last_message_at := 5 } else s),
           aliceSessionDb.chat_messages ++ [⟨"bob", "s1", "hi", "yo", 5⟩]⟩ :=
  ⟨(sessionWrite_ownership_spec aliceSessionDb "bob" "s1" (by decide)).1 none none,
   (sessionWrite_ownership_spec aliceSessionDb "bob" "s1" (by decide)).2.1 "new" none,
   (sessionWrite_ownership_spec aliceSessionDb "bob" "s1" (by decide)).2.2 "hi" "yo" 5⟩

/-- C3 counterexample: a failing history query (a step-1 failure) does not
abort `processMessage`: the run still returns a generated response, with
the sentinel in the history slot. -/
theorem processMessage_history_error_not_aborting_cex :
    histErrOracle.historyErr = some "connection reset" ∧
    processMessage ⟨[], []⟩ "u" "s1" "hello" none histErrOracle =
      .ok histErrOutcome := by
  exact ⟨rfl, rfl⟩

/-- C3 as amended: `processMessage` succeeds exactly when the query
rewrite, the similarity search, the model invocation and the message insert
all succeed — a history query error and a `last_message_at` update error
never abort it; every abort surfaces the generic error message; and on an
update failure the already-persisted message row is kept, the sessions
table is left as it was, and the generated response is still returned. -/
theorem processMessage_failure_policy_spec
    (db : ChatDb) (userId sessionId message : String) (category : Option String)
    (o : ProcessOracle) :
    ((processMessage db userId sessionId message category o).isOk =
      (o.searchQuery.isOk && o.searchResult.isOk && o.modelResponse.isOk &&
        o.insertErr.isNone)) ∧
    (∀ msg, processMessage db userId sessionId message category o = .error msg →
      ∃ e, msg = "Failed to process message: " ++ e) ∧
    (∀ resp out, o.updateErr.isSome = true → o.modelResponse = .ok resp →
      processMessage db userId sessionId message category o = .ok out →
      out.response.response = resp ∧
      out.db.chat_messages =
        db.chat_messages ++ [⟨userId, sessionId, message, resp, o.now⟩] ∧
      out.db.chat_sessions = db.chat_sessions) := by
  refine ⟨?_, ?_, ?_⟩
  · unfold processMessage saveChatMessage
    cases hq : o.searchQuery <;> cases hr : o.searchResult <;>
      cases hm : o.modelResponse <;> cases hi : o.insertErr <;>
      cases hu : o.updateErr <;>
      simp [Except.isOk, Except.toBool]
  · intro msg hrun
    unfold processMessage saveChatMessage at hrun
    cases hq : o.searchQuery <;> cases hr : o.searchResult <;>
      cases hm : o.modelResponse <;> cases hi : o.insertErr <;>
      cases hu : o.updateErr <;>
      simp [hq, hr, hm, hi, hu] at hrun <;>
      exact ⟨_, hrun.symm⟩
  · intro resp out hupd hm hrun
    unfold processMessage at hrun
    cases hq : o.searchQuery with
    | error e => simp only [hq] at hrun; exact Except.noConfusion hrun
    | ok q =>
      simp only [hq] at hrun
      cases hr : o.searchResult with
      | error e => simp only [hr] at hrun; exact Except.noConfusion hrun
      | ok documents =>
        simp only [hr, hm] at hrun
        cases hu : o.updateErr with
        | none => rw [hu] at hupd; exact Bool.noConfusion hupd
        | some ue =>
          cases hi : o.insertErr with
          | some ie =>
            simp only [saveChatMessage, hi] at hrun
            exact Except.noConfusion hrun
          | none =>
            simp only [saveChatMessage, hi, hu, Except.ok.injEq] at hrun
            subst hrun
            exact ⟨rfl, rfl, rfl⟩

/-- Witness for C3 (amended) at a concrete update-failure run. -/
theorem processMessage_failure_policy_spec_witness :
    ((processMessage ⟨[], []⟩ "u" "s1" "hello" none
        ⟨none, .ok "query", .ok [], .ok "calm", none, some "timeout", 7⟩).isOk =
      ((Except.ok "query" : Except String String).isOk &&
        (Except.ok [] : Except String (List RetrievedDoc)).isOk &&
        (Except.ok "calm" : Except String String).isOk &&
        (none : Option String).isNone)) ∧
    (⟨⟨"calm", none⟩,
      ⟨"No previous conversation history.", "hello",
       "No specific information available on this topic."⟩,
      ⟨[], [⟨"u", "s1", "hello", "calm", 7⟩]⟩⟩ : ProcessOutcome).response.response = "calm" ∧
    (⟨⟨"calm", none⟩,
      ⟨"No previous conversation history.", "hello",
       "No specific information available on this topic."⟩,
      ⟨[], [⟨"u", "s1", "hello", "calm", 7⟩]⟩⟩ : ProcessOutcome).db.chat_messages =
      ([] : List ChatMessageRow) ++ [⟨"u", "s1", "hello", "calm", 7⟩] ∧
    (⟨⟨"calm", none⟩,
      ⟨"No previous conversation history.", "hello",
       "No specific information available on this topic."⟩,
      ⟨[], [⟨"u", "s1", "hello", "calm", 7⟩]⟩⟩ : ProcessOutcome).db.chat_sessions =
      ([] : List ChatSessionRow) := by
  have h := processMessage_failure_policy_spec ⟨[], []⟩ "u" "s1" "hello" none
    ⟨none, .ok "query", .ok [], .ok "calm", none, some "timeout", 7⟩
  have h3 := h.2.2 "calm"
    ⟨⟨"calm", none⟩,
      ⟨"No previous conversation history.", "hello",
       "No specific information available on this topic."⟩,
      ⟨[], [⟨"u", "s1", "hello", "calm", 7⟩]⟩⟩ rfl rfl rfl
  exact ⟨h.1, h3.1, h3.2.1, h3.2.2⟩

/-- C4: `deleteDocument` succeeds exactly when both the chunk deletion and
the metadata deletion succeed, and then neither store retains a row of the
document; a partial failure is reported as a single failure message with no
compensation: when the chunk deletion succeeded and the metadata deletion
failed, the chunks stay deleted (the vector store no longer holds any row
of the document) while the metadata row is untouched, and when the chunk
deletion failed nothing was touched at all. -/
theorem deleteDocument_spec (db : DocDb) (documentId : String)
    (vErr mErr : Option String) :
    ((deleteDocument db documentId vErr mErr).1.success = true ↔
      (vErr = none ∧ mErr = none)) ∧
    (vErr = none → mErr = none →
      ((deleteDocument db documentId vErr mErr).2.vectors.all
        (fun r => !(r.documentId == documentId)) = true) ∧
      ((deleteDocument db documentId vErr mErr).2.document_metadata.all
        (fun r => !(r.id == documentId)) = true) ∧
      (deleteDocument db documentId vErr mErr).1.message = "Document successfully deleted") ∧
    (∀ e, vErr = none → mErr = some e →
      (deleteDocument db documentId vErr mErr).1.success = false ∧
      ((deleteDocument db documentId vErr mErr).2.vectors.all
        (fun r => !(r.documentId == documentId)) = true) ∧
      (deleteDocument db documentId vErr mErr).2.document_metadata = db.document_metadata ∧
      (deleteDocument db documentId vErr mErr).1.message =
        "Error deleting document: Failed to delete document metadata: " ++ e) ∧
    (∀ e, vErr = some e →
      (deleteDocument db documentId vErr mErr).1.success = false ∧
      (deleteDocument db documentId vErr mErr).2 = db ∧
      (deleteDocument db documentId vErr mErr).1.message =
        "Error deleting document: Failed to delete document chunks: " ++ e) := by
  refine ⟨?_, ?_, ?_, ?_⟩
  · cases vErr <;> cases mErr <;> simp [deleteDocument]
  · intro hv hm
    subst hv; subst hm
    refine ⟨?_, ?_, rfl⟩
    · simp only [deleteDocument, List.all_eq_true]
      intro r hr
      exact (List.mem_filter.1 hr).2
    · simp only [deleteDocument, List.all_eq_true]
      intro r hr
      exact (List.mem_filter.1 hr).2
  · intro e hv hm
    subst hv; subst hm
    refine ⟨rfl, ?_, rfl, rfl⟩
    simp only [deleteDocument, List.all_eq_true]
    intro r hr
    exact (List.mem_filter.1 hr).2
  · intro e hv
    subst hv
    exact ⟨rfl, rfl, rfl⟩

/-- Witness for C4 at a concrete two-document store with a failing
metadata deletion. -/
theorem deleteDocument_spec_witness :
    ((deleteDocument twoDocDb "d1" none none).1.success = true ↔
      ((none : Option String) = none ∧ (none : Option String) = none)) ∧
    (deleteDocument twoDocDb "d1" none (some "boom")).1.success = false ∧
    ((deleteDocument twoDocDb "d1" none (some "boom")).2.vectors.all
      (fun r => !(r.documentId == "d1")) = true) ∧
    (deleteDocument twoDocDb "d1" none (some "boom")).2.document_metadata =
      twoDocDb.document_metadata ∧
    (deleteDocument twoDocDb "d1" none (some "boom")).1.message =
      "Error deleting document: Failed to delete document metadata: " ++ "boom" := by
  have hok := (deleteDocument_spec twoDocDb "d1" none none).1
  have hpart := (deleteDocument_spec twoDocDb "d1" none (some "boom")).2.2.1 "boom" rfl rfl
  exact ⟨hok, hpart.1, hpart.2.1, hpart.2.2.1, hpart.2.2.2⟩

/-- The `substring` length is the minimum of the bound and the string
length. -/
theorem length_jsSubstringTo (s : String) (n : Nat) :
    (jsSubstringTo s n).length = min n s.length := by
  show (s.toList.take n).length = min n s.length
  rw [List.length_take]
  rfl

/-- C5: the title returned by `generateChatTitle` never exceeds 50
characters; on the generation path, a trimmed model output longer than 50
characters is replaced by its first 47 characters followed by an ellipsis,
a shorter one is returned unchanged, and the stored session title equals
the returned one when the title update succeeds. -/
theorem generateChatTitle_spec
    (db : ChatDb) (userId sessionId modelOutput : String) (updateErr : Option String) :
    ((generateChatTitle db userId sessionId modelOutput updateErr).1.length ≤ 50) ∧
    ((db.chat_sessions.filter
        (fun s => s.id == sessionId && s.user_id == userId)).isEmpty = false →
      (50 < (jsTrimS modelOutput).length →
        (generateChatTitle db userId sessionId modelOutput updateErr).1 =
          jsSubstringTo (jsTrimS modelOutput) 47 ++ "...") ∧
      ((jsTrimS modelOutput).length ≤ 50 →
        (generateChatTitle db userId sessionId modelOutput updateErr).1 = jsTrimS modelOutput) ∧
      (updateErr = none →
        (generateChatTitle db userId sessionId modelOutput updateErr).2.chat_sessions =
          db.chat_sessions.map (fun s =>
            if s.id == sessionId then
              { s with title := (generateChatTitle db userId sessionId modelOutput updateErr).1 }
            else s))) := by
  have hlen : (truncateTitle modelOutput).length ≤ 50 := by
    unfold truncateTitle
    by_cases h : (jsTrimS modelOutput).length > 50
    · rw [if_pos h, String.length_append, length_jsSubstringTo]
      have h47 : min 47 (jsTrimS modelOutput).length = 47 :=
        Nat.min_eq_left (le_of_lt (lt_trans (by norm_num) h))
      rw [h47]
      decide
    · rw [if_neg h]
      omega
  cases hfound : (db.chat_sessions.filter
      (fun s => s.id == sessionId && s.user_id == userId)).isEmpty with
  | true =>
    constructor
    · simp only [generateChatTitle, hfound, if_true]
      decide
    · intro hcontra
      exact absurd hcontra (by simp)
  | false =>
    constructor
    · cases updateErr <;>
        simp only [generateChatTitle, hfound, Bool.false_eq_true, if_false] <;>
        exact hlen
    · intro _
      refine ⟨?_, ?_, ?_⟩
      · intro hgt
        cases updateErr <;>
          simp only [generateChatTitle, hfound, Bool.false_eq_true, if_false,
            truncateTitle, if_pos hgt]
      · intro hle
        have hnot : ¬ ((jsTrimS modelOutput).length > 50) := by omega
        cases updateErr <;>
          simp only [generateChatTitle, hfound, Bool.false_eq_true, if_false,
            truncateTitle, if_neg hnot]
      · intro hupd
        subst hupd
        simp only [generateChatTitle, hfound, Bool.false_eq_true, if_false]

/-- Witness for C5 at a 60-character model output. -/
theorem generateChatTitle_spec_witness :
    ((generateChatTitle bobSessionDb "bob" "s1" longModelOutput none).1.length ≤ 50) ∧
    (generateChatTitle bobSessionDb "bob" "s1" longModelOutput none).1 =
      jsSubstringTo (jsTrimS longModelOutput) 47 ++ "..." ∧
    (generateChatTitle bobSessionDb "bob" "s1" longModelOutput none).2.chat_sessions =
      bobSessionDb.chat_sessions.map (fun s =>
        if s.id == "s1" then
          { s with title := (generateChatTitle bobSessionDb "bob" "s1" longModelOutput none).1 }
        else s) := by
  have h := generateChatTitle_spec bobSessionDb "bob" "s1" longModelOutput none
  have h2 := h.2 (by decide)
  exact ⟨h.1, h2.1 (by decide), h2.2.2 rfl⟩

/-- C6 counterexample: an authenticated user without the `is_admin` claim
who has no row in the `users` table at all — so certainly not an admin —
receives a 500 from the failed fallback lookup, not a 403. -/
theorem requireAdmin_lookup_error_cex :
    AdminMiddleware.requireAdmin (some ⟨"u1", false⟩) [] none =
      .resp 500 "Error verifying user permissions" ∧
    (([] : List UserRow).all (fun r => !(r.role == "admin"))) = true ∧
    MiddlewareOutcome.resp 500 "Error verifying user permissions" ≠
      .resp 403 "Admin privileges required" := by
  exact ⟨rfl, rfl, by decide⟩

/-- C6 as amended: with a valid token, a true in-token `is_admin` claim
passes the check without consulting the store; when the claim is absent or
false and the fallback role lookup finds the user with a non-admin role the
response is 403 (not 401); a failing lookup instead yields 500. -/
theorem requireAdmin_spec (u : AuthUser) (users : List UserRow) :
    (u.is_admin_claim = true →
      ∀ dbErr, AdminMiddleware.requireAdmin (some u) users dbErr = .next) ∧
    (∀ r, u.is_admin_claim = false →
      users.find? (fun x => x.id == u.id) = some r → r.role ≠ "admin" →
      AdminMiddleware.requireAdmin (some u) users none =
        .resp 403 "Admin privileges required") ∧
    (∀ e, u.is_admin_claim = false →
      AdminMiddleware.requireAdmin (some u) users (some e) =
        .resp 500 "Error verifying user permissions") ∧
    ((403 : Nat) ≠ 401) := by
  refine ⟨?_, ?_, ?_, by decide⟩
  · intro hclaim dbErr
    simp [AdminMiddleware.requireAdmin, hclaim]
  · intro r hclaim hfind hrole
    simp [AdminMiddleware.requireAdmin, AdminMiddleware.lookupRole, hclaim, hfind, hrole]
  · intro e hclaim
    simp [AdminMiddleware.requireAdmin, AdminMiddleware.lookupRole, hclaim]

/-- Witness for C6 (amended) at a concrete non-admin user. -/
theorem requireAdmin_spec_witness :
    AdminMiddleware.requireAdmin (some ⟨"u2", true⟩) [⟨"u1", "user"⟩] none = .next ∧
    AdminMiddleware.requireAdmin (some ⟨"u1", false⟩) [⟨"u1", "user"⟩] none =
      .resp 403 "Admin privileges required" ∧
    AdminMiddleware.requireAdmin (some ⟨"u1", false⟩) [⟨"u1", "user"⟩] (some "down") =
      .resp 500 "Error verifying user permissions" :=
  ⟨(requireAdmin_spec ⟨"u2", true⟩ [⟨"u1", "user"⟩]).1 rfl none,
   (requireAdmin_spec ⟨"u1", false⟩ [⟨"u1", "user"⟩]).2.1 ⟨"u1", "user"⟩ rfl rfl (by decide),
   (requireAdmin_spec ⟨"u1", false⟩ [⟨"u1", "user"⟩]).2.2.1 "down" rfl⟩

/-- C7: resending an OTP for an email whose user exists and for which the
provider reports an already-confirmed error yields the specific 400
failure, whose message differs from every generic message the operation
can produce and from the provider text passed through for other provider
errors. -/
theorem resendOtp_already_confirmed_spec
    (email : String) (emails : List String) (m : String)
    (hne : email ≠ "") (hmem : emails.contains email = true)
    (hconf : strIncludes m "already confirmed" = true) :
    AuthService.resendOtp email (.ok emails) (some m) =
      ⟨false, "Email is already verified. Please login instead.", some 400⟩ ∧
    (∀ m2, strIncludes m2 "already confirmed" = false →
      strIncludes m2 "rate limit" = false →
      AuthService.resendOtp email (.ok emails) (some m2) = ⟨false, m2, some 400⟩) ∧
    ("Email is already verified. Please login instead." ≠ "Error verifying user email") ∧
    ("Email is already verified. Please login instead." ≠
      "No user found with this email address") ∧
    ("Email is already verified. Please login instead." ≠
      "Too many requests. Please try again later.") := by
  have hm : email ∈ emails := List.mem_of_elem_eq_true hmem
  refine ⟨?_, ?_, by decide, by decide, by decide⟩
  · simp [AuthService.resendOtp, hne, hm, hconf]
  · intro m2 h2 h3
    simp [AuthService.resendOtp, hne, hm, h2, h3]

/-- Witness for C7 at a concrete already-confirmed account. -/
theorem resendOtp_already_confirmed_spec_witness :
    AuthService.resendOtp "a@b.c" (.ok ["a@b.c"]) (some "User already confirmed") =
      ⟨false, "Email is already verified. Please login instead.", some 400⟩ ∧
    AuthService.resendOtp "a@b.c" (.ok ["a@b.c"]) (some "upstream glitch") =
      ⟨false, "upstream glitch", some 400⟩ := by
  have h := resendOtp_already_confirmed_spec "a@b.c" ["a@b.c"] "User already confirmed"
    (by decide) (by decide) (by decide)
  exact ⟨h.1, h.2.1 "upstream glitch" (by decide) (by decide)⟩

/-- C9: `getCategories` returns each distinct category at most once —
the result is duplicate-free, contains exactly the non-null, non-empty
category values present among the metadata rows, and counts every present
category exactly once regardless of how many rows share it. -/
theorem getCategories_spec (rows : List DocumentMetadataRow) :
    getCategories rows none = .ok (getCategoriesList rows) ∧
    (getCategoriesList rows).Nodup ∧
    (∀ c : String, c ∈ getCategoriesList rows ↔
      (some c ∈ rows.map (fun r => r.category) ∧ c ≠ "")) ∧
    (∀ c : String, some c ∈ rows.map (fun r => r.category) → c ≠ "" →
      (getCategoriesList rows).count c = 1) := by
  have hnodup : (getCategoriesList rows).Nodup := by
    refine List.Nodup.filter _ (List.Nodup.filterMap ?_ (nodup_jsSetDedup _))
    intro a a2 b hb hb2
    simp only [id, Option.mem_def] at hb hb2
    rw [hb, hb2]
  have hmem : ∀ c : String, c ∈ getCategoriesList rows ↔
      (some c ∈ rows.map (fun r => r.category) ∧ c ≠ "") := by
    intro c
    simp only [getCategoriesList, List.mem_filter, List.mem_filterMap,
      Option.mem_def, id, decide_eq_true_eq]
    constructor
    · rintro ⟨⟨a, ha, hac⟩, hne⟩
      subst hac
      exact ⟨(List.mem_insertionSort optStrLe).1 (mem_jsSetDedup.1 ha), hne⟩
    · rintro ⟨hin, hne⟩
      exact ⟨⟨some c, mem_jsSetDedup.2 ((List.mem_insertionSort optStrLe).2 hin), rfl⟩, hne⟩
  refine ⟨rfl, hnodup, hmem, ?_⟩
  intro c hin hne
  exact List.count_eq_one_of_mem hnodup ((hmem c).2 ⟨hin, hne⟩)

/-- Witness for C9 at rows sharing one category, with a null and an empty
category between them. -/
theorem getCategories_spec_witness :
    getCategories sharedCategoryRows none = .ok (getCategoriesList sharedCategoryRows) ∧
    ("sleep" ∈ getCategoriesList sharedCategoryRows ↔
      (some "sleep" ∈ sharedCategoryRows.map (fun r => r.category) ∧ "sleep" ≠ "")) ∧
    (getCategoriesList sharedCategoryRows).count "sleep" = 1 := by
  have h := getCategories_spec sharedCategoryRows
  exact ⟨h.1, h.2.2.1 "sleep",
    h.2.2.2 "sleep" (by decide) (by decide)⟩

/-- C10: `updateUserProfile` rejects an invalid user id or an empty payload
with a 400 and no write; on the success path it maps only the row matched
by `id`, applying exactly the whitelisted pairs plus the `updated_at`
stamp, so the updated row keeps its `id` and every column outside
`full_name`, `avatar_url`, `website`, `updated_at` (role-bearing data
included), whatever keys the caller supplied. -/
theorem updateUserProfile_frame_spec
    (profiles : List Profile) (userId : String)
    (profileData : List (String × String)) (now : String) :
    (∀ dbErr, UserService.updateUserProfile profiles userId false profileData now dbErr =
      (⟨false, "Invalid or missing user ID", some 400⟩, profiles)) ∧
    (∀ dbErr, profileData = [] →
      UserService.updateUserProfile profiles userId true profileData now dbErr =
        (⟨false, "No data provided for update", some 400⟩, profiles)) ∧
    (profileData ≠ [] → profiles.any (fun p => p.id == userId) = true →
      (UserService.updateUserProfile profiles userId true profileData now none).2 =
        profiles.map (fun p =>
          if p.id == userId then
            applyProfileUpdate (filteredProfileData profileData now) p
          else p) ∧
      (∀ p : Profile,
        (applyProfileUpdate (filteredProfileData profileData now) p).id = p.id ∧
        (applyProfileUpdate (filteredProfileData profileData now) p).other = p.other)) := by
  refine ⟨fun dbErr => rfl, ?_, ?_⟩
  · intro dbErr hempty
    subst hempty
    rfl
  · intro hne hany
    have hkeys := filteredProfileData_keys profileData now
    refine ⟨?_, fun p => applyProfileUpdate_keeps_id_other _ p hkeys⟩
    have hne2 : profileData.isEmpty = false := by
      cases profileData with
      | nil => exact absurd rfl hne
      | cons a l => rfl
    simp [UserService.updateUserProfile, hne2, hany]

/-- Witness for C10 at a one-row store and a payload mixing a whitelisted
key with a role-overwrite attempt. -/
theorem updateUserProfile_frame_spec_witness :
    (UserService.updateUserProfile [exProfile] "u1" false
        [("role", "admin"), ("full_name", "Bob")] "t1" none =
      (⟨false, "Invalid or missing user ID", some 400⟩, [exProfile])) ∧
    (UserService.updateUserProfile [exProfile] "u1" true [] "t1" none =
      (⟨false, "No data provided for update", some 400⟩, [exProfile])) ∧
    (UserService.updateUserProfile [exProfile] "u1" true
        [("role", "admin"), ("full_name", "Bob")] "t1" none).2 =
      [exProfile].map (fun p =>
        if p.id == "u1" then
          applyProfileUpdate
            (filteredProfileData [("role", "admin"), ("full_name", "Bob")] "t1") p
        else p) ∧
    (applyProfileUpdate
        (filteredProfileData [("role", "admin"), ("full_name", "Bob")] "t1")
        exProfile).id = exProfile.id ∧
    (applyProfileUpdate
        (filteredProfileData [("role", "admin"), ("full_name", "Bob")] "t1")
        exProfile).other = exProfile.other := by
  have h := updateUserProfile_frame_spec [exProfile] "u1"
    [("role", "admin"), ("full_name", "Bob")] "t1"
  have hempty := (updateUserProfile_frame_spec [exProfile] "u1" [] "t1").2.1 none rfl
  have h3 := h.2.2 (by simp) (by decide)
  exact ⟨h.1 none, hempty, h3.1, (h3.2 exProfile).1, (h3.2 exProfile).2⟩
